import Mathlib

/-!
# Verification of the notion2wechat synchronization pipeline

Shallow embedding of the core of the `notion2wechat` repository: the
`retry` helper (src/utils, the variant exporting both `logger` and `retry`),
the media relay (`downloadMedia` / `uploadMedia`), the block renderer
(`richTextToHtml`, `blockToHtml`, `convertContent`), the paginated block
fetcher (`getAllBlocks`), the publish step (`publishArticle`) and the
orchestrator loop (`initSync`), together with theorems settling the frozen
claims about them.

JavaScript-specific behaviour that the claims hinge on is modelled
explicitly:
* the dynamically typed `times` argument of `retry` (a number, `NaN`, or a
  plain object such as a `retryConfig`),
* strict equality (`===`) between a `Boolean` and a `Number`,
* block scoping of `const` declarations (an identifier declared inside a
  `try` block is not visible in the matching `catch` block).
-/

/-- Errors thrown inside the pipeline.  Each constructor stands for one
family of JavaScript exceptions observed in the source. -/
inductive JsErr where
  /-- `ReferenceError: <name> is not defined` — reading an identifier that is
  not bound in any enclosing scope. -/
  | referenceError : String → JsErr
  /-- A Notion listing / fetch call failed (after its retry wrapper). -/
  | fetchFailed : JsErr
  /-- A network-level error from `axios` / `cloud` calls. -/
  | networkError : JsErr
  /-- part_002 `downloadMedia`: running byte counter exceeded the ceiling
  (`reject(new Error('File too large'))`). -/
  | fileTooLarge : JsErr
  /-- `axios` rejected the request because the declared `content-length`
  exceeds the configured `maxContentLength`. -/
  | maxContentLength : JsErr
  /-- `axios` `validateStatus` rejected a non-200 response. -/
  | badStatus : JsErr
  /-- part_002 `publishArticle`: `new Error('WeChat API error: ...')`. -/
  | wxApiError : String → JsErr
  deriving DecidableEq

/-- The `message` of a thrown error, as used by `res.status(500).send(err.message)`. -/
def jsErrMessage : JsErr → String
  | .referenceError n => n ++ " is not defined"
  | .fetchFailed => "fetch failed"
  | .networkError => "network error"
  | .fileTooLarge => "File too large"
  | .maxContentLength => "maxContentLength size of 10485760 exceeded"
  | .badStatus => "Request failed"
  | .wxApiError m => "WeChat API error: " ++ m

/-!
## The `retry` helper (src/utils, the module exporting both `logger` and `retry`)

```js
async function retry(fn, times = 3, delay = 1000) {
  try {
    return await fn();
  } catch (err) {
    if (times === 0) throw err;
    await new Promise(r => setTimeout(r, delay));
    return retry(fn, times - 1, delay * 2);
  }
}
```

Every call site in the repository either passes a `retryConfig` **object**
(e.g. `retry(() => ..., config.notion.retryConfig)` with
`retryConfig = { retries: 5, minTimeout: 3000, maxTimeout: 15000, factor: 2 }`
from the config module) or no second argument at all
(`retry(() => publishArticle(article))`).  The dynamic type of the `times`
argument therefore matters and is modelled by `JsTimes`.
-/

/-- The JavaScript value flowing through the `times` parameter of `retry`. -/
inductive JsTimes where
  /-- An actual number (the default `3`, or a number a caller might pass). -/
  | num : Int → JsTimes
  /-- `NaN`, produced by `object - 1`. -/
  | nan : JsTimes
  /-- A plain object, e.g. a `retryConfig` record passed as `times`. -/
  | obj : JsTimes
  deriving DecidableEq

/-- JavaScript `times - 1`.  Subtraction coerces its operands to numbers:
`Number(plainObject)` is `NaN`, and `NaN - 1` is `NaN`. -/
def JsTimes.sub1 : JsTimes → JsTimes
  | num n => num (n - 1)
  | nan => nan
  | obj => nan

/-- JavaScript `times === 0`.  Strict equality: true only for the number `0`;
`NaN === 0` is false and `object === 0` is false (no coercion). -/
def JsTimes.isZero : JsTimes → Bool
  | num n => n == 0
  | nan => false
  | obj => false

/-- Shallow embedding of `retry(fn, times, delay)` for an operation whose
outcome on its `k`-th invocation (0-based) is `op k`.  `fuel` bounds the
number of invocations we are willing to unfold; `none` means the recursion
has not produced a result within `fuel` invocations (so with `fuel`
arbitrary, `none` for every `fuel` is non-termination).  On termination the
result carries the final outcome, the total number of invocations of `op`,
and the list of inter-attempt delays slept (in order). -/
def retryFuel {α : Type} (op : Nat → Except JsErr α) :
    Nat → JsTimes → Nat → Nat → Option (Except JsErr α × Nat × List Nat)
  | 0, _, _, _ => none
  | fuel + 1, times, d, attempt =>
    match op attempt with
    | .ok a => some (.ok a, 1, [])
    | .error e =>
      if times.isZero then some (.error e, 1, [])
      else
        match retryFuel op fuel times.sub1 (d * 2) (attempt + 1) with
        | none => none
        | some (out, calls, delays) => some (out, calls + 1, d :: delays)

/-- An operation that fails on every invocation. -/
def alwaysFail : Nat → Except JsErr Unit := fun _ => .error .networkError

/-- The `times` value actually passed at the Notion call sites:
`config.notion.retryConfig` is a plain object. -/
def notionRetryConfigTimes : JsTimes := .obj

theorem retryFuel_nan_allFail {α : Type} (op : Nat → Except JsErr α)
    (hop : ∀ k, ∃ e, op k = .error e) :
    ∀ (fuel d attempt : Nat), retryFuel op fuel .nan d attempt = none := by
  intro fuel
  induction fuel with
  | zero => intro d attempt; rfl
  | succ n ih =>
    intro d attempt
    obtain ⟨e, he⟩ := hop attempt
    simp only [retryFuel, he, JsTimes.isZero, JsTimes.sub1]
    rw [ih (d * 2) (attempt + 1)]
    simp

theorem retryFuel_obj_allFail {α : Type} (op : Nat → Except JsErr α)
    (hop : ∀ k, ∃ e, op k = .error e) :
    ∀ (fuel d attempt : Nat), retryFuel op fuel .obj d attempt = none := by
  intro fuel d attempt
  cases fuel with
  | zero => rfl
  | succ n =>
    obtain ⟨e, he⟩ := hop attempt
    simp only [retryFuel, he, JsTimes.isZero, JsTimes.sub1]
    rw [retryFuel_nan_allFail op hop n (d * 2) (attempt + 1)]
    simp

/-- Claim C2. The claim states that `retry` under a policy
`{maxAttempts, minDelay, maxDelay, growthFactor}` invokes an always-failing
operation exactly `maxAttempts` times, then propagates the last error, with
every inter-attempt delay inside `[minDelay, maxDelay]`.  The code violates
this: (1) when the policy object itself is passed as the `times` argument
(as every configured call site does), `times - 1` is `NaN` and `NaN === 0`
is never true, so the recursion never reaches the `throw` — the operation
is retried forever (no fuel suffices); (2) when `times` is the numeric
default `3`, the operation is invoked `4` times (not `maxAttempts` times)
and the delays are `1000, 2000, 4000` — fixed by the `delay` default, the
policy's `minTimeout = 3000` / `maxTimeout = 15000` bounds are ignored. -/
theorem retry_ignores_policy_and_never_exhausts :
    (∀ fuel d attempt,
        retryFuel alwaysFail fuel notionRetryConfigTimes d attempt = none) ∧
    retryFuel alwaysFail 5 (JsTimes.num 3) 1000 0
      = some (.error .networkError, 4, [1000, 2000, 4000]) := by
  constructor
  · intro fuel d attempt
    exact retryFuel_obj_allFail alwaysFail (fun k => ⟨.networkError, rfl⟩) fuel d attempt
  · rfl

/-!
## MediaRelay: `downloadMedia` and `uploadMedia` (part_002; part_001 analogous)

`downloadMedia` (part_002 lines 30-83) issues an `axios` GET with
`responseType: 'stream'`, `maxContentLength: 10 * 1024 * 1024` and
`validateStatus: status => status === 200`, then accumulates the streamed
chunks while keeping a running byte counter, rejecting with
`'File too large'` as soon as the counter exceeds `10 * 1024 * 1024`; only
after the `end` event does it concatenate the chunks into the returned
buffer.  The `axios` layer (an external collaborator) is modelled at its
interface: it rejects a non-200 status and rejects a response whose declared
`content-length` exceeds `maxContentLength`.
-/

/-- The byte ceiling `10 * 1024 * 1024`, used both as the `axios`
`maxContentLength` and in the in-repo running counter. -/
def axiosMaxContentLength : Nat := 10 * 1024 * 1024

/-- One HTTP response as seen by `downloadMedia`: status code, declared
`content-length`, and the streamed chunks (each a list of bytes). -/
structure HttpResponse where
  status : Nat
  declaredLength : Nat
  chunks : List (List Nat)

/-- Total number of bytes actually carried by the response stream. -/
def HttpResponse.totalBytes (r : HttpResponse) : Nat :=
  (r.chunks.map List.length).sum

/-- The `data` / `end` event loop of part_002 `downloadMedia`: push each
chunk, add its length to the running counter, and reject with
`'File too large'` the moment the counter exceeds the ceiling; on `end`,
`Buffer.concat(chunks)`. -/
def collectChunks : List (List Nat) → Nat → Except JsErr (List Nat)
  | [], _ => .ok []
  | c :: rest, total =>
    let t := total + c.length
    if axiosMaxContentLength < t then .error .fileTooLarge
    else
      match collectChunks rest t with
      | .ok tail => .ok (c ++ tail)
      | .error e => .error e

/-- part_002 `downloadMedia(url)`, with the `axios` request/response cycle
modelled at its interface (reject non-200, reject an over-declared
`content-length`) and the in-repo streaming loop translated directly. -/
def downloadMedia (resp : HttpResponse) : Except JsErr (List Nat) :=
  if resp.status ≠ 200 then .error .badStatus
  else if axiosMaxContentLength < resp.declaredLength then .error .maxContentLength
  else collectChunks resp.chunks 0

/-- Returns `true` exactly on `Except.ok`. -/
def exceptIsOk {α : Type} : Except JsErr α → Bool
  | .ok _ => true
  | .error _ => false

/-!
`uploadMedia` (part_002 lines 86-137, part_001 lines 49-73):

```js
async function uploadMedia(url) {
  try {
    const buffer = await retry(() => downloadMedia(url), {...retryConfig, onRetry});
    if (!buffer || buffer.length === 0) { throw new Error('Empty media content'); }
    const result = await retry(() => cloud.uploadFile({...}), {...retryConfig, onRetry});
    return result.fileID;
  } catch (err) {
    logger.error(...);
    return process.env.DEFAULT_THUMB_MEDIA_ID || '';
  }
}
```

Both `retry` calls pass a `retryConfig` **object** as `times` and leave
`delay` at its default `1000`.  The remote effects are parameterised by a
`MediaEnv`: the outcome of the `k`-th download attempt, the outcome of the
`k`-th `cloud.uploadFile` attempt, and the configured fallback reference.
-/

/-- Environment of one top-level `uploadMedia(url)` call. -/
structure MediaEnv where
  /-- Outcome of the `k`-th invocation of `() => downloadMedia(url)`:
  rejected, or resolved with a buffer (`none` models resolving `undefined`,
  which the `!buffer` guard also catches). -/
  download : Nat → Except JsErr (Option (List Nat))
  /-- Outcome of the `k`-th invocation of `() => cloud.uploadFile(...)`:
  rejected, or resolved with a `fileID`. -/
  upload : Nat → Except JsErr String
  /-- `process.env.DEFAULT_THUMB_MEDIA_ID || ''`. -/
  defaultThumbMediaId : String

/-- The `!buffer || buffer.length === 0` guard. -/
def jsBufferEmpty : Option (List Nat) → Bool
  | none => true
  | some b => b.length == 0

/-- Shallow embedding of `uploadMedia`.  The result is `none` when one of
the two inner `retry` loops has not settled within `fuel` invocations
(`none` for every `fuel` = the call never settles); otherwise
`some (outcome, uploadCalled)` where `outcome` is what the caller of
`uploadMedia` observes (`.error` would mean an exception propagated out of
`uploadMedia`) and `uploadCalled` records whether `cloud.uploadFile` was
ever invoked. -/
def uploadMedia (env : MediaEnv) (fuel : Nat) :
    Option (Except JsErr String × Bool) :=
  match retryFuel env.download fuel .obj 1000 0 with
  | none => none
  | some (.error _, _, _) =>
    -- the catch block: log, return the fallback reference
    some (.ok env.defaultThumbMediaId, false)
  | some (.ok buffer, _, _) =>
    if jsBufferEmpty buffer then
      -- `throw new Error('Empty media content')`, caught below: fallback
      some (.ok env.defaultThumbMediaId, false)
    else
      match retryFuel env.upload fuel .obj 1000 0 with
      | none => none
      | some (.error _, _, _) => some (.ok env.defaultThumbMediaId, true)
      | some (.ok fileID, _, _) => some (.ok fileID, true)

/-- A media URL whose every download attempt fails (e.g. the server returns
a network error on each attempt). -/
def envAllFailDownload : MediaEnv where
  download := fun _ => .error .networkError
  upload := fun _ => .ok "cloud://file-id-1"
  defaultThumbMediaId := "default-thumb-id"

/-- Asserts that `uploadMedia` never settles in this environment: no amount of fuel
produces a result (the two `retry` loops never exhaust an object-valued
`times`). -/
def uploadMediaNeverSettles (env : MediaEnv) : Prop :=
  ∀ fuel, uploadMedia env fuel = none

theorem uploadMedia_allFail_none (env : MediaEnv)
    (h : ∀ k, ∃ e, env.download k = .error e) :
    uploadMediaNeverSettles env := by
  intro fuel
  unfold uploadMedia
  rw [retryFuel_obj_allFail env.download h fuel 1000 0]

/-- Claim C3 counterexample. The claim says `uploadMedia` returns a storage
reference (possibly the fallback) for every input.  For a URL whose every
download attempt fails, both `retry` loops carry an object-valued `times`
that never satisfies `times === 0`, so `uploadMedia` never settles at all —
in particular it never returns the fallback reference. -/
theorem uploadMedia_persistent_failure_never_settles :
    uploadMediaNeverSettles envAllFailDownload :=
  uploadMedia_allFail_none envAllFailDownload (fun _ => ⟨.networkError, rfl⟩)

/-- Returns `true` exactly when an `uploadMedia` outcome is a settled outcome that
propagates an exception to the caller. -/
def isThrownOutcome : Option (Except JsErr String × Bool) → Bool
  | some (.error _, _) => true
  | _ => false

/-- Claim C3 (amended). `uploadMedia` never propagates an exception to its
caller: every settled outcome is a normal return (an upload-derived
reference or the fallback).  What the original claim got wrong is the
"always returns" part: on persistently failing download or upload the call
never settles (see the counterexample), and `uploadImage` of sync.js is
designed to rethrow rather than fall back. -/
theorem uploadMedia_never_propagates (env : MediaEnv) (fuel : Nat) :
    isThrownOutcome (uploadMedia env fuel) = false := by
  unfold uploadMedia
  split
  · rfl
  · rfl
  · split
    · rfl
    · split
      · rfl
      · rfl
      · rfl

/-- Claim C10. If the download settles with an empty (or absent) buffer, the
`!buffer || buffer.length === 0` guard throws `'Empty media content'`
before `cloud.uploadFile` is ever invoked, and the catch block returns the
configured fallback reference: the upload step is never called with an
empty buffer. -/
theorem uploadMedia_empty_buffer_fallback (env : MediaEnv) (fuel : Nat)
    (hfuel : 1 ≤ fuel)
    (hdl : env.download 0 = .ok none ∨ env.download 0 = .ok (some [])) :
    uploadMedia env fuel = some (.ok env.defaultThumbMediaId, false) := by
  obtain ⟨f, rfl⟩ : ∃ f, fuel = f + 1 := ⟨fuel - 1, by omega⟩
  unfold uploadMedia
  rcases hdl with h | h <;> simp [retryFuel, h, jsBufferEmpty]

/-- A download that settles immediately with an empty buffer. -/
def envEmptyDownload : MediaEnv where
  download := fun _ => .ok (some [])
  upload := fun _ => .ok "cloud://file-id-2"
  defaultThumbMediaId := "fallback-ref"

theorem uploadMedia_empty_buffer_fallback_witness :
    uploadMedia envEmptyDownload 1 = some (.ok "fallback-ref", false) :=
  uploadMedia_empty_buffer_fallback envEmptyDownload 1 (by decide) (Or.inr rfl)

theorem collectChunks_exceeds (chunks : List (List Nat)) (total : Nat)
    (hle : total ≤ axiosMaxContentLength)
    (hgt : axiosMaxContentLength < total + (chunks.map List.length).sum) :
    exceptIsOk (collectChunks chunks total) = false := by
  induction chunks generalizing total with
  | nil => simp at hgt; omega
  | cons c rest ih =>
    simp only [collectChunks]
    by_cases h : axiosMaxContentLength < total + c.length
    · simp [h, exceptIsOk]
    · have h' : total + c.length ≤ axiosMaxContentLength := Nat.not_lt.mp h
      have hgt' : axiosMaxContentLength < (total + c.length) + (rest.map List.length).sum := by
        simp only [List.map_cons, List.sum_cons] at hgt
        omega
      have hrec := ih (total + c.length) h' hgt'
      simp only [h, if_false]
      revert hrec
      cases collectChunks rest (total + c.length) <;> simp [exceptIsOk]

/-- The response whose declared `content-length` exceeds the ceiling by one
byte; every download attempt for it is rejected by the `axios` layer. -/
def oversizedResp : HttpResponse := ⟨200, axiosMaxContentLength + 1, []⟩

/-- A 200 response with an honest header but an oversized actual stream. -/
def chunkyResp : HttpResponse :=
  ⟨200, 0, [List.replicate (axiosMaxContentLength + 1) 0]⟩

/-- The environment of an `uploadMedia` call on a fixed response for the URL:
every `() => downloadMedia(url)` invocation yields that response's result. -/
def mediaEnvOfResponse (resp : HttpResponse) : MediaEnv where
  download := fun _ => (downloadMedia resp).map some
  upload := fun _ => .ok "cloud://file-id-3"
  defaultThumbMediaId := "default-thumb-id"

/-- Claim C6. First two conjuncts (they hold): a resource whose declared
`content-length` exceeds the ceiling, or whose actual streamed byte count
exceeds the ceiling, never has its bytes returned by `downloadMedia`.
Third conjunct (the code-bug half): the enclosing relay does **not** return
the fallback reference for such a resource — because every download attempt
fails deterministically and the retry budget (a config object) never
exhausts, `uploadMedia` never settles at all. -/
theorem sizeCeiling_rejects_but_relay_never_falls_back :
    (∀ resp : HttpResponse, axiosMaxContentLength < resp.declaredLength →
        exceptIsOk (downloadMedia resp) = false) ∧
    (∀ resp : HttpResponse, axiosMaxContentLength < resp.totalBytes →
        exceptIsOk (downloadMedia resp) = false) ∧
    ∀ fuel, uploadMedia (mediaEnvOfResponse oversizedResp) fuel = none := by
  refine ⟨?_, ?_, ?_⟩
  · intro resp h
    unfold downloadMedia
    split
    · rfl
    · simp [h, exceptIsOk]
  · intro resp h
    unfold downloadMedia
    split
    · rfl
    · split
      · rfl
      · exact collectChunks_exceeds resp.chunks 0 (Nat.zero_le _)
          (by simpa [HttpResponse.totalBytes] using h)
  · exact uploadMedia_allFail_none (mediaEnvOfResponse oversizedResp)
      (fun _ => ⟨.maxContentLength, rfl⟩)

theorem sizeCeiling_witness :
    exceptIsOk (downloadMedia oversizedResp) = false ∧
    exceptIsOk (downloadMedia chunkyResp) = false :=
  ⟨sizeCeiling_rejects_but_relay_never_falls_back.1 oversizedResp (by decide),
   sizeCeiling_rejects_but_relay_never_falls_back.2.1 chunkyResp
     (by simp only [chunkyResp, HttpResponse.totalBytes, List.map_cons,
           List.map_nil, List.length_replicate, List.sum_cons, List.sum_nil]
         omega)⟩

/-!
## ContentRenderer: `richTextToHtml`, `blockToHtml`, `convertContent`

`richTextToHtml` (part_001 lines 166-189, part_006 lines 199-232, textually
identical logic): each run's `plain_text` is wrapped, in program order, by
`<strong>` (bold), `<em>` (italic), `<del>` (strikethrough), `<u>`
(underline), `<code>` (code annotation) — each wrapping the accumulated
content, so a later annotation ends up *outside* an earlier one — and
finally by the link anchor when `href` is present; the rendered runs are
joined with no separator.
-/

/-- The annotations object of a Notion rich-text run. -/
structure Annotations where
  bold : Bool
  italic : Bool
  strikethrough : Bool
  underline : Bool
  code : Bool
  deriving DecidableEq

/-- One rich-text run: `plain_text`, `annotations`, optional `href`. -/
structure RichText where
  plain_text : String
  annotations : Annotations
  href : Option String
  deriving DecidableEq

/-- The body of the `richText.map(text => ...)` callback. -/
def renderRun (t : RichText) : String :=
  let c0 := t.plain_text
  let c1 := if t.annotations.bold then "<strong>" ++ c0 ++ "</strong>" else c0
  let c2 := if t.annotations.italic then "<em>" ++ c1 ++ "</em>" else c1
  let c3 := if t.annotations.strikethrough then "<del>" ++ c2 ++ "</del>" else c2
  let c4 := if t.annotations.underline then "<u>" ++ c3 ++ "</u>" else c3
  let c5 := if t.annotations.code then "<code>" ++ c4 ++ "</code>" else c4
  match t.href with
  | some u => "<a href=\"" ++ u ++ "\" target=\"_blank\">" ++ c5 ++ "</a>"
  | none => c5

/-- The function `richTextToHtml(richText)`: empty input renders as `''`, otherwise the
runs are rendered and joined with `''`. -/
def richTextToHtml (l : List RichText) : String :=
  if l.length == 0 then "" else String.join (l.map renderRun)

/-- Claim C8. A run with both `bold` and `italic` annotations and an `href`
renders as the text wrapped first in `<strong>`, that wrapped in `<em>`,
and the whole wrapped in the link anchor — for every text and every href,
so the nesting order is fixed and deterministic across all inputs. -/
theorem richText_bold_italic_href_nesting (s u : String) :
    richTextToHtml [⟨s, ⟨true, true, false, false, false⟩, some u⟩]
      = "<a href=\"" ++ u ++ "\" target=\"_blank\">"
          ++ ("<em>" ++ ("<strong>" ++ s ++ "</strong>") ++ "</em>") ++ "</a>" := by
  simp [richTextToHtml, renderRun, String.join]

/-- The `type` tag of a Notion block, restricted to the kinds the renderer
handles (`unsupported` covers every other tag, rendered as `''`). -/
inductive BlockType where
  | paragraph
  | heading1
  | heading2
  | heading3
  | bulleted
  | numbered
  | code
  | image
  | quote
  | divider
  | unsupported
  deriving DecidableEq

/-- A Notion block: its `type`, its rich text payload (the `rich_text`
array of whichever `block[type]` object applies), the resolved image URL
for `image` blocks, the `has_children` flag, and the blocks that
`getAllBlocks(block.id)` returns for it (used by part_006 `convertContent`
when `has_children` is set). -/
inductive Block where
  | mk : BlockType → List RichText → Option String → Bool → List Block → Block

/-- The block's `type`. -/
def Block.btype : Block → BlockType
  | mk t _ _ _ _ => t

/-- The block's `rich_text` payload. -/
def Block.richText : Block → List RichText
  | mk _ r _ _ _ => r

/-- The block's resolved image URL (for `image` blocks). -/
def Block.imageUrl : Block → Option String
  | mk _ _ u _ _ => u

/-- The block's `has_children` flag. -/
def Block.hasChildrenFlag : Block → Bool
  | mk _ _ _ h _ => h

/-- The children `getAllBlocks(block.id)` would return. -/
def Block.children : Block → List Block
  | mk _ _ _ _ c => c

/-- The test `block.type === 'bulleted_list_item' || block.type === 'numbered_list_item'`. -/
def isListItem : BlockType → Bool
  | .bulleted => true
  | .numbered => true
  | _ => false

/-- part_001's lookahead test `type?.includes('list_item')`: both
`'bulleted_list_item'` and `'numbered_list_item'` contain `'list_item'`,
no other handled tag does. -/
def typeIncludesListItem : BlockType → Bool
  | .bulleted => true
  | .numbered => true
  | _ => false

/-- part_006 `blockToHtml` (lines 121-196).  The `image` case's inner
try/catch means a failed relay renders as `''`; the relay result for a URL
is supplied by `media`. -/
def blockToHtml006 (media : String → String) (b : Block) : String :=
  match b.btype with
  | .paragraph => "<p>" ++ richTextToHtml b.richText ++ "</p>"
  | .heading1 => "<h1>" ++ richTextToHtml b.richText ++ "</h1>"
  | .heading2 => "<h2>" ++ richTextToHtml b.richText ++ "</h2>"
  | .heading3 => "<h3>" ++ richTextToHtml b.richText ++ "</h3>"
  | .bulleted => "<li>" ++ richTextToHtml b.richText ++ "</li>"
  | .numbered => "<li>" ++ richTextToHtml b.richText ++ "</li>"
  | .code =>
    "<pre style=\"background:#f6f8fa;padding:10px;border-radius:5px;\"><code>"
      ++ richTextToHtml b.richText ++ "</code></pre>"
  | .image =>
    match b.imageUrl with
    | some u => "<img src=\"" ++ media u ++ "\" style=\"max-width:100%\"/>"
    | none => ""
  | .quote =>
    "<blockquote style=\"border-left:4px solid #ddd;margin:0;padding-left:16px;\">\n          "
      ++ richTextToHtml b.richText ++ "\n        </blockquote>"
  | .divider => "<hr/>"
  | .unsupported => ""

/-- part_001 `blockToHtml` (lines 107-163): same structure, unstyled
`code` / `quote` tags. -/
def blockToHtml001 (media : String → String) (b : Block) : String :=
  match b.btype with
  | .paragraph => "<p>" ++ richTextToHtml b.richText ++ "</p>"
  | .heading1 => "<h1>" ++ richTextToHtml b.richText ++ "</h1>"
  | .heading2 => "<h2>" ++ richTextToHtml b.richText ++ "</h2>"
  | .heading3 => "<h3>" ++ richTextToHtml b.richText ++ "</h3>"
  | .bulleted => "<li>" ++ richTextToHtml b.richText ++ "</li>"
  | .numbered => "<li>" ++ richTextToHtml b.richText ++ "</li>"
  | .code => "<pre><code>" ++ richTextToHtml b.richText ++ "</code></pre>"
  | .image =>
    match b.imageUrl with
    | some u => "<img src=\"" ++ media u ++ "\" style=\"max-width:100%\"/>"
    | none => ""
  | .quote => "<blockquote>" ++ richTextToHtml b.richText ++ "</blockquote>"
  | .divider => "<hr/>"
  | .unsupported => ""

/-- The after-loop closing tag of part_006 `convertContent`: chosen by the
type of `blocks[blocks.length - 1]`.  (`inList` can only be true for a
non-empty list, so the `none` case is unreachable.) -/
def closeTrailingList006 (blocks : List Block) (p : String × Bool) : String :=
  if p.2 then
    p.1 ++
      (match blocks.getLast? with
       | some b => if b.btype == BlockType.bulleted then "</ul>" else "</ol>"
       | none => "")
  else p.1

mutual

/-- The `for (const block of blocks)` loop of part_006 `convertContent`
(lines 235-270), threading `html` and `inList`.  Note the list-closing
branch: when a non-list block interrupts an open list, the closing tag is
chosen by the **interrupting block's** type
(`block.type === 'bulleted_list_item' ? '</ul>' : '</ol>'`). -/
def conv006Go (media : String → String) :
    List Block → Bool → String → String × Bool
  | [], inList, html => (html, inList)
  | Block.mk t rt iu hc ch :: rest, inList, html =>
    let blockHtml := blockToHtml006 media (Block.mk t rt iu hc ch)
    let p :=
      if isListItem t then
        if !inList then
          (html ++ (if t == BlockType.bulleted then "<ul>" else "<ol>"), true)
        else (html, inList)
      else if inList then
        (html ++ (if t == BlockType.bulleted then "</ul>" else "</ol>"), false)
      else (html, inList)
    let html2 := p.1 ++ blockHtml
    let html3 :=
      if hc then html2 ++ convertContent006 media ch else html2
    conv006Go media rest p.2 html3

/-- part_006 `convertContent(blocks)`. -/
def convertContent006 (media : String → String) (blocks : List Block) : String :=
  closeTrailingList006 blocks (conv006Go media blocks false "")

end

/-- part_001's lookahead `blocks[blocks.indexOf(block) + 1]?.type?.includes('list_item')`
applied to the remaining blocks: `false` when there is no next block. -/
def nextTypeIncludesListItem : List Block → Bool
  | [] => false
  | b :: _ => typeIncludesListItem b.btype

/-- The `for (const block of blocks)` loop of part_001 `convertContent`
(lines 192-221).  Two things to note, both translated as written:
the interrupt branch appends `'</ul>'` only when the accumulated html ends
with `'</li>'` (and the empty string otherwise), and the lookahead branch
always appends the hard-coded `'</ul>'` whatever kind of list is open.
The loop has no after-loop closing step. -/
def conv001Go (media : String → String) :
    List Block → Bool → String → String
  | [], _, html => html
  | b :: rest, inList, html =>
    let p :=
      if isListItem b.btype && !inList then
        (html ++ (if b.btype == BlockType.bulleted then "<ul>" else "<ol>"), true)
      else if inList && !(isListItem b.btype) then
        (html ++ (if html.endsWith ("</li>") then "</ul>" else ""), false)
      else (html, inList)
    let html2 := p.1 ++ blockToHtml001 media b
    let q :=
      if p.2 && !(nextTypeIncludesListItem rest) then (html2 ++ "</ul>", false)
      else (html2, p.2)
    conv001Go media rest q.2 q.1

/-- part_001 `convertContent(blocks)`. -/
def convertContent001 (media : String → String) (blocks : List Block) : String :=
  conv001Go media blocks false ""

/-- A plain-text rich-text run. -/
def runOf (s : String) : RichText := ⟨s, ⟨false, false, false, false, false⟩, none⟩

/-- A childless block of the given type carrying one plain run. -/
def textBlock (t : BlockType) (s : String) : Block := Block.mk t [runOf s] none false []

/-- The claim's probe sequence: [bulleted A, bulleted B, paragraph C, numbered D]. -/
def c4Input : List Block :=
  [textBlock BlockType.bulleted "A", textBlock BlockType.bulleted "B",
   textBlock BlockType.paragraph "C", textBlock BlockType.numbered "D"]

/-- The media relay is not consulted for this input (no image blocks). -/
def noMedia : String → String := fun _ => ""

/-- The output the spec's testable property demands for `c4Input`. -/
def specExpectedListHtml : String :=
  "<ul><li>A</li><li>B</li></ul><p>C</p><ol><li>D</li></ol>"

/-- Claim C4. The claim (and the spec's testable property) demands
`<ul><li>A</li><li>B</li></ul><p>C</p><ol><li>D</li></ol>` with every
closing tag matching the open list's kind.  Both renderer variants fail on
exactly this input: part_006 closes the bulleted list with `</ol>` (its
interrupt branch consults the *paragraph's* type), and part_001 closes the
numbered list with the hard-coded `</ul>`. -/
theorem convertContent_mismatched_list_close :
    convertContent006 noMedia c4Input
        = "<ul><li>A</li><li>B</li></ol><p>C</p><ol><li>D</li></ol>" ∧
    convertContent001 noMedia c4Input
        = "<ul><li>A</li><li>B</li></ul><p>C</p><ol><li>D</li></ul>" ∧
    (convertContent006 noMedia c4Input == specExpectedListHtml) = false ∧
    (convertContent001 noMedia c4Input == specExpectedListHtml) = false := by
  have h6 : convertContent006 noMedia c4Input
      = "<ul><li>A</li><li>B</li></ol><p>C</p><ol><li>D</li></ol>" := by
    simp [convertContent006, conv006Go, closeTrailingList006, c4Input, textBlock,
      runOf, noMedia, blockToHtml006, richTextToHtml, renderRun, isListItem,
      Block.btype, Block.richText, String.join]
  have h1 : convertContent001 noMedia c4Input
      = "<ul><li>A</li><li>B</li></ul><p>C</p><ol><li>D</li></ul>" := by decide
  refine ⟨h6, h1, ?_, ?_⟩
  · rw [h6]; decide
  · rw [h1]; decide

/-!
## TreeFetcher: `getAllBlocks`

sync.js `getAllBlocks` (and the identical part_005 / part_003 variants):

```js
let allBlocks = []; let startCursor = undefined; let hasMore = true;
while (hasMore) {
  const response = await retry(() => notion.blocks.children.list({...}), ...);
  allBlocks = allBlocks.concat(response.results);
  hasMore = response.has_more;
  startCursor = response.next_cursor;
  await Promise.all(response.results.map(async (block) => { ... }));
}
return allBlocks;
```

The loop is driven purely by the successive responses, modelled as the
list of pages the API returns for the successive calls; the `Promise.all`
child expansion mutates the already-appended elements in place (attaching
`block.children`) and neither adds, removes nor reorders them.  part_001's
variant is a do/while driven by `next_cursor` instead of `has_more`
(a Notion response has `next_cursor = null` exactly when `has_more` is
false).
-/

/-- One page of a paginated listing response. -/
structure ListResp (α : Type) where
  results : List α
  has_more : Bool
  next_cursor : Option Nat

/-- The `while (hasMore)` accumulation loop of sync.js `getAllBlocks`,
consuming the successive responses in order. -/
def getAllBlocksLoop {α : Type} : List (ListResp α) → List α
  | [] => []
  | r :: rest => r.results ++ (if r.has_more then getAllBlocksLoop rest else [])

/-- The `do { ... } while (cursor)` accumulation loop of part_001
`getAllBlocks`, driven by `next_cursor` truthiness. -/
def getAllBlocksCursorLoop {α : Type} : List (ListResp α) → List α
  | [] => []
  | r :: rest =>
    r.results ++
      (match r.next_cursor with
       | some _ => getAllBlocksCursorLoop rest
       | none => [])

/-- Claim C7. Three responses reporting `hasMore = true, true, false`: the
loop terminates after consuming exactly those three pages and returns the
concatenation of their results in page order — 3 items when each page
carries one result.  The cursor-driven part_001 variant agrees. -/
theorem getAllBlocks_three_pages {α : Type} (r1 r2 r3 : List α) (c1 c2 : Nat)
    (h1 : r1.length = 1) (h2 : r2.length = 1) (h3 : r3.length = 1) :
    getAllBlocksLoop [⟨r1, true, some c1⟩, ⟨r2, true, some c2⟩, ⟨r3, false, none⟩]
        = r1 ++ r2 ++ r3 ∧
    (getAllBlocksLoop [⟨r1, true, some c1⟩, ⟨r2, true, some c2⟩, ⟨r3, false, none⟩]).length = 3 ∧
    getAllBlocksCursorLoop [⟨r1, true, some c1⟩, ⟨r2, true, some c2⟩, ⟨r3, false, none⟩]
        = r1 ++ r2 ++ r3 := by
  refine ⟨?_, ?_, ?_⟩ <;>
    simp [getAllBlocksLoop, getAllBlocksCursorLoop, h1, h2, h3]

theorem getAllBlocks_three_pages_witness :
    getAllBlocksLoop
        [⟨[10], true, some 1⟩, ⟨[20], true, some 2⟩, (⟨[30], false, none⟩ : ListResp Nat)]
        = [10, 20, 30] ∧
    (getAllBlocksLoop
        [⟨[10], true, some 1⟩, ⟨[20], true, some 2⟩, (⟨[30], false, none⟩ : ListResp Nat)]).length = 3 ∧
    getAllBlocksCursorLoop
        [⟨[10], true, some 1⟩, ⟨[20], true, some 2⟩, (⟨[30], false, none⟩ : ListResp Nat)]
        = [10, 20, 30] :=
  getAllBlocks_three_pages [10] [20] [30] 1 2 rfl rfl rfl

/-!
## Publishing and checkpointing (part_002)

part_002 `publishArticle` (lines 178-199):

```js
const result = await cloud.openapi.wxacode.submitPages({ articles: [article] });
if (!result.errCode === 0) {
  throw new Error(`WeChat API error: ...`);
}
return result;
```

Unary `!` binds tighter than `===`, so the guard is
`(!result.errCode) === 0`: a Boolean strictly compared with a Number.
-/

/-- Result object of the WeChat publish API call. -/
structure WxResult where
  errCode : Int
  errMsg : String
  deriving DecidableEq

/-- JavaScript truthiness of a number: every number except `0` (and `NaN`)
is truthy. -/
def jsTruthyInt (n : Int) : Bool := n != 0

/-- JavaScript `x === y` for a Boolean `x` and a Number `y`: strict
equality between operands of different types is `false`, with no
coercion. -/
def jsStrictEqBoolNum (_ : Bool) (_ : Int) : Bool := false

/-- part_002 `publishArticle`, parameterised by the outcome of the
`cloud.openapi` call.  Its catch block logs and rethrows, and the success
path checks `(!result.errCode) === 0`. -/
def publishArticle002 (api : Except JsErr WxResult) : Except JsErr WxResult :=
  match api with
  | .error e => .error e
  | .ok r =>
    if jsStrictEqBoolNum (! jsTruthyInt r.errCode) 0 then
      .error (.wxApiError r.errMsg)
    else .ok r

/-- The per-document publish / checkpoint tail of part_002 `initSync`
(lines 271-283): `await retry(() => publishArticle(article), retryConfig)`
followed by `await retry(() => notion.pages.update({... synced: true}),
retryConfig)` — both with the config object as `times`.  The result is the
document's final checkpoint flag: `some true` when the update ran,
`some false` when an error reached the per-document catch first, `none`
when a retry loop never settles. -/
def publishThenCheckpoint (fuel : Nat) (api : Nat → Except JsErr WxResult)
    (updateOp : Nat → Except JsErr Unit) : Option Bool :=
  match retryFuel (fun k => publishArticle002 (api k)) fuel .obj 1000 0 with
  | none => none
  | some (.error _, _, _) => some false
  | some (.ok _, _, _) =>
    match retryFuel updateOp fuel .obj 1000 0 with
    | none => none
    | some (.error _, _, _) => some false
    | some (.ok _, _, _) => some true

/-- Claim C5. The claim says the checkpoint is flipped only after a publish
that is *confirmed successful*.  But the confirmation guard
`(!result.errCode) === 0` is always false (a Boolean is never strictly
equal to a Number), so `publishArticle` accepts **every** API result —
including an explicit failure report such as `errCode = 1` — and the
pipeline then sets `synced: true` for that document. -/
theorem failed_publish_still_checkpoints :
    (∀ r : WxResult, publishArticle002 (.ok r) = .ok r) ∧
    publishThenCheckpoint 1 (fun _ => .ok ⟨1, "system busy"⟩) (fun _ => .ok ())
      = some true := by
  exact ⟨fun r => rfl, rfl⟩

/-!
## SyncOrchestrator: `initSync` (sync.js second revision, lines 351-515;
part_005 lines 176-284 is the same shape)

Per document the loop runs:

```js
for (const page of response.results) {
  try {
    const props = page.properties;
    // title lookup; `continue` (a skip, not an exception) when missing
    // fetch, render, publish, checkpoint update  — any of these may throw
    processedCount++;
  } catch (err) {
    logger.error("Failed to process article:", {
      pageId: page.id,
      error: err.message,
      stack: err.stack,
      properties: Object.keys(props),   // <-- `props`
    });
    continue;
  }
}
```

`props` is declared with `const` **inside the `try` block**, so it is not
in scope in the `catch` block, and no enclosing scope of `initSync` binds
`props` either.  Building the log-call's argument object therefore
evaluates an unbound identifier.  The scope chain visible from the catch
block is written out below so this can be checked against the source; the
outcome of the `try` body for each document is abstracted as a
`DocOutcome`.
-/

/-- Every identifier bound in a scope enclosing the per-document `catch`
block of sync.js `initSync` (revision two): the catch parameter, the loop
variable, the `while`-body `const`, the function-level `let`s, and the
module-level imports / declarations. -/
def syncCatchScopeVars : List String :=
  ["err", "page", "response", "hasMore", "startCursor", "processedCount",
   "initSync", "getAllBlocks", "publishArticle", "convertContent",
   "uploadImage", "notion", "cloud", "convert", "retry", "logger", "config",
   "Client"]

/-- Reading an identifier: a `ReferenceError` when no enclosing scope
binds it. -/
def lookupVar (scope : List String) (name : String) : Except JsErr Unit :=
  if scope.contains name then .ok () else .error (.referenceError name)

/-- The per-document catch handler: constructing the log object evaluates
`Object.keys(props)`; on success it logs and `continue`s. -/
def docCatchHandler : Except JsErr Unit :=
  lookupVar syncCatchScopeVars ("props")

/-- Outcome of one document's `try` body. -/
inductive DocOutcome where
  /-- Fetch, render, publish and checkpoint update all succeeded. -/
  | success : DocOutcome
  /-- The title lookup failed: the body `continue`s without an exception
  and without touching the checkpoint. -/
  | skipNoTitle : DocOutcome
  /-- Some pipeline step (fetch, render, media relay, publish, or
  checkpoint update) threw. -/
  | raises : JsErr → DocOutcome

/-- Observable result of one `initSync` run over a batch: the value the
returned promise settles with (`.ok ()` models resolving `undefined` — the
function body has no `return` statement), the number of documents counted
by `processedCount++`, and each input document's final checkpoint flag. -/
structure SyncRun where
  retVal : Except JsErr Unit
  processedCount : Nat
  checkpoints : List Bool

/-- The document loop of `initSync`.  A `raises` outcome enters the catch
handler; if the handler itself throws, the error propagates out of the
loop into `initSync`'s outer catch, which logs and rethrows — no further
document is processed and every remaining checkpoint stays false. -/
def runDocsAux : List DocOutcome → Nat → List Bool → SyncRun
  | [], c, acc => ⟨.ok (), c, acc.reverse⟩
  | d :: rest, c, acc =>
    match d with
    | .skipNoTitle => runDocsAux rest c (false :: acc)
    | .success => runDocsAux rest (c + 1) (true :: acc)
    | .raises _ =>
      match docCatchHandler with
      | .ok _ => runDocsAux rest c (false :: acc)
      | .error e => ⟨.error e, c, acc.reverse ++ false :: rest.map (fun _ => false)⟩

/-- One `initSync` run over one page of documents. -/
def initSyncRun (docs : List DocOutcome) : SyncRun :=
  runDocsAux docs 0 []

/-- Claim C1. The claim: with exactly one failing document in the batch, the
other documents are processed, a skip is reported, and the batch runs to
completion.  The code: the catch handler references `props`, which is
block-scoped to the `try`, so handling the first document's exception
itself throws `ReferenceError: props is not defined`; the run aborts, the
healthy second document is never processed (its checkpoint stays false,
the count stays 0) — only the failing document's checkpoint remaining
false matches the claim. -/
theorem one_failing_doc_aborts_batch :
    initSyncRun [DocOutcome.raises .fetchFailed, DocOutcome.success]
      = ⟨.error (.referenceError ("props")), 0, [false, false]⟩ := rfl

/-!
## The manual-trigger endpoint (src/index.js lines 19-27)

```js
app.post('/sync', async (req, res) => {
  try {
    await initSync();
    res.status(200).send('Sync triggered');
  } catch (err) {
    logger.error('Manual sync failed:', err);
    res.status(500).send(err.message);
  }
});
```
-/

/-- What `await initSync()` settles with: `initSync` has no `return`
statement, so on completion the promise resolves `undefined`. -/
def initSyncRetVal (docs : List DocOutcome) : Except JsErr Unit :=
  (initSyncRun docs).retVal

/-- The `/sync` endpoint's HTTP response (status, body). -/
def syncEndpoint (docs : List DocOutcome) : Nat × String :=
  match initSyncRetVal docs with
  | .ok _ => (200, "Sync triggered")
  | .error e => (500, jsErrMessage e)

/-- Claim C9 counterexample. The claim says `run()` returns a result
containing `processedCount` and the endpoint returns a success response
carrying that count.  Two runs with different processed counts (1 vs 0)
produce byte-identical endpoint responses, so the response cannot carry
the count; `initSync` itself resolves with `undefined` (the count is only
logged). -/
theorem syncEndpoint_carries_no_count :
    syncEndpoint [DocOutcome.success] = (200, "Sync triggered") ∧
    syncEndpoint [] = (200, "Sync triggered") ∧
    (initSyncRun [DocOutcome.success]).processedCount = 1 ∧
    (initSyncRun []).processedCount = 0 :=
  ⟨rfl, rfl, rfl, rfl⟩

/-- Claim C9 (amended). When the run completes without a run-level fatal
error, `initSync` resolves with no value and the endpoint replies
`200 'Sync triggered'` — a fixed body independent of how many documents
were processed; a run-level failure is reported as `500` with the error's
message. -/
theorem syncEndpoint_fixed_success_body (docs : List DocOutcome)
    (h : initSyncRetVal docs = .ok ()) :
    syncEndpoint docs = (200, "Sync triggered") := by
  unfold syncEndpoint
  rw [h]

theorem syncEndpoint_fixed_success_body_witness :
    syncEndpoint [DocOutcome.skipNoTitle] = (200, "Sync triggered") :=
  syncEndpoint_fixed_success_body [DocOutcome.skipNoTitle] rfl
